import Mathlib

/-!
Shallow embedding of the batch-upload coordinator of the
Multilingual-Document-Summarizer front end (src/script.js, src/file-handler.js)
and proofs about the claims of its specification.

Conventions of the embedding:
* Files are records of the fields the code reads (`name`, `size`, `type`).
* DOM status writes (`updateFileStatus`) are modelled as explicit events; an
  item's visible state is obtained by folding the events over the initial
  state (`Ready to process`, progress 0).
* The remote service is an oracle `RemoteOutcome` per item: either a
  successful JSON payload or a thrown error message (network failure or a
  non-ok response with its `detail`).
* Promised code is modelled by its synchronous dispatch/settle structure:
  `Promise.all(batch.map f)` starts the closures in item order and the loop
  resumes only after every closure has settled.  Thrown JS errors are
  `Except.error` values; a JS `try/catch` is the total function obtained by
  handling the `Except`.
* `showError` notifications are modelled by threading the list of messages
  currently shown (the error surface).
-/

/-- A browser `File` as the code reads it: `file.name`, `file.size`,
`file.type` (script.js:188-200, file-handler.js:17-34). -/
structure JsFile where
  name : String
  size : Nat
  type : String
deriving DecidableEq, Repr

/-- Constant `maxFileSize = 10 * 1024 * 1024` (script.js:40, file-handler.js:3). -/
def maxFileSize : Nat := 10 * 1024 * 1024

/-- Keys of the `acceptedTypes` object (script.js:41-51); identical to
`SUPPORTED_TYPES` in file-handler.js:4-14. -/
def acceptedTypes : List String :=
  ["text/plain",
   "application/pdf",
   "application/msword",
   "application/vnd.openxmlformats-officedocument.wordprocessingml.document",
   "image/jpeg",
   "image/png",
   "image/gif",
   "image/bmp",
   "image/tiff"]

/-- Function `validateFile` (script.js:188-200).  The function returns a bare boolean
and, on rejection, calls `showError`, which appends a notification to the
error surface; the surface is threaded explicitly to make that side effect
visible. -/
def validateFile (file : JsFile) (errorSurface : List String) :
    Bool × List String :=
  if file.size > maxFileSize then
    (false, errorSurface ++ ["File size must be less than 10MB"])
  else if !(acceptedTypes.contains file.type) then
    (false, errorSurface ++ ["File type not supported"])
  else
    (true, errorSurface)

/-- Rejection reasons of the validation policy. -/
inductive RejectReason
  | sizeExceeded
  | unsupportedType
deriving DecidableEq, Repr

/-- The validation performed by `fileHandler.handleFiles` on one file
(file-handler.js:17-34): `none` means the file is accepted and
`displayFileInfo` runs; `some r` is the violated rule (a `showError` with a
message naming that rule is emitted; the message text interpolates
`formatFileSize`, whose floating-point formatting is not modelled). -/
def fhCheck (file : JsFile) : Option RejectReason :=
  if file.size > maxFileSize then some RejectReason.sizeExceeded
  else if !(acceptedTypes.contains file.type) then
    some RejectReason.unsupportedType
  else none

/-- JSON payload of a successful `POST /upload` response:
`{filename, summary}` (script.js:615-616). -/
structure UploadData where
  filename : String
  summary : String
deriving DecidableEq, Repr

/-- Outcome of one remote upload call: `ok` is a 2xx response with its JSON
body; `err m` is a network failure or non-ok response, which the code turns
into a thrown `Error` with message `m` (script.js:227-230, 124-130). -/
inductive RemoteOutcome
  | ok (data : UploadData)
  | err (msg : String)
deriving DecidableEq, Repr

/-- Visible state of a file item: the text of its `.file-status` element and
the width of its progress bar (script.js:202-210). -/
structure ItemState where
  status : String
  progress : Nat
deriving DecidableEq, Repr

/-- Initial state of an item after `handleFiles` (script.js:285). -/
def initState : ItemState := { status := "Ready to process", progress := 0 }

/-- Events of one item's processing: a `updateFileStatus` write or the
dispatch of the remote `fetch` call. -/
inductive ItemEv
  | setStatus (status : String) (progress : Nat)
  | remoteCall
deriving DecidableEq, Repr

/-- Effect of one event on the visible item state. -/
def applyEv (st : ItemState) : ItemEv → ItemState
  | ItemEv.setStatus s p => { status := s, progress := p }
  | ItemEv.remoteCall => st

/-- Visible state after a sequence of events. -/
def runTrace (st : ItemState) (t : List ItemEv) : ItemState :=
  t.foldl applyEv st

/-- Statuses written by a sequence of events, in order. -/
def statusWrites (t : List ItemEv) : List String :=
  t.filterMap fun e =>
    match e with
    | ItemEv.setStatus s _ => some s
    | ItemEv.remoteCall => none

/-- Trace of `uploadFile` (script.js:212-239): status `Uploading...` at 30% before
the fetch; `Completed` at 100% on success; `Error: <msg>` at 0% on failure
(the error is then rethrown, see `uploadFileResult`). -/
def uploadFileTrace (outcome : RemoteOutcome) : List ItemEv :=
  [ItemEv.setStatus "Uploading..." 30, ItemEv.remoteCall] ++
  (match outcome with
   | RemoteOutcome.ok _ => [ItemEv.setStatus "Completed" 100]
   | RemoteOutcome.err m => [ItemEv.setStatus ("Error: " ++ m) 0])

/-- Value or rethrown error of `uploadFile` (script.js:233, 237); the same
shape models `processFile`'s return (script.js:436, 439). -/
def uploadFileResult (outcome : RemoteOutcome) : Except String UploadData :=
  match outcome with
  | RemoteOutcome.ok d => Except.ok d
  | RemoteOutcome.err m => Except.error m

/-- Trace of `processFile` (script.js:411-441): status `Processing...` at 50% before
the fetch; `Completed` at 100% on success; `Error: <msg>` at 0% on failure,
rethrowing the error. -/
def processFileTrace (outcome : RemoteOutcome) : List ItemEv :=
  [ItemEv.setStatus "Processing..." 50, ItemEv.remoteCall] ++
  (match outcome with
   | RemoteOutcome.ok _ => [ItemEv.setStatus "Completed" 100]
   | RemoteOutcome.err m => [ItemEv.setStatus ("Error: " ++ m) 0])

/-- Lookup `getFileFromItem` (script.js:245-255): the local `fileMap` is consulted
first; on a miss, `window.__fileMap` (the registry of file-handler.js,
present only when that intake surface ran — hence an `Option`) is consulted
before giving up. -/
def getFileFromItem {ι : Type} (primary : ι → Option JsFile)
    (globalReg : Option (ι → Option JsFile)) (it : ι) : Option JsFile :=
  match primary it with
  | some f => some f
  | none =>
    match globalReg with
    | some g => g it
    | none => none

/-- Body of the `try` of the per-item closure in the processBtn handler
(script.js:339-345): a registry miss throws `File not found` before any
status write or remote call; otherwise `uploadFile` runs. -/
def processBtnTry (lookup : Option JsFile) (outcome : RemoteOutcome) :
    List ItemEv × Except String UploadData :=
  match lookup with
  | none => ([], Except.error "File not found")
  | some _ => (uploadFileTrace outcome, uploadFileResult outcome)

/-- Whole per-item closure of the processBtn handler with its `catch`
(script.js:338-350): the catch writes `Error: <msg>` at 0% and swallows the
error, so the closure always settles; the boolean is whether
`successCount++` ran. -/
def processBtnClosure (lookup : Option JsFile) (outcome : RemoteOutcome) :
    List ItemEv × Bool :=
  match processBtnTry lookup outcome with
  | (tr, Except.ok _) => (tr, true)
  | (tr, Except.error m) =>
      (tr ++ [ItemEv.setStatus ("Error: " ++ m) 0], false)

/-- Final visible state of an item processed by the processBtn handler,
determined by that item's own registry lookup and remote outcome alone. -/
def procItemFinal (lookup : Option JsFile) (outcome : RemoteOutcome) :
    ItemState :=
  runTrace initState (processBtnClosure lookup outcome).1

/-- Per-item closure of the summarize handler's batch branch
(script.js:590-598): the lookup is `fileMap.get(fileItem)` on the primary
registry only; a miss writes `Error: No file found` and rejects with
`No file found`; otherwise `processFile` runs and its value or error is the
settlement recorded by `Promise.allSettled`. -/
def summarizeBatchClosure (primaryLookup : Option JsFile)
    (outcome : RemoteOutcome) : List ItemEv × Except String UploadData :=
  match primaryLookup with
  | none =>
      ([ItemEv.setStatus "Error: No file found" 0], Except.error "No file found")
  | some _ => (processFileTrace outcome, uploadFileResult outcome)

/-- Final visible state of an item in the summarize handler's batch branch. -/
def sumItemFinal (primaryLookup : Option JsFile) (outcome : RemoteOutcome) :
    ItemState :=
  runTrace initState (summarizeBatchClosure primaryLookup outcome).1

/-- The grouping of the batch loops (`for (let i = 0; i < n; i += 3)` taking
`slice(i, i + 3)`, script.js:336-337 and script.js:588-589 with
`maxConcurrent = 3`). -/
def groupsOf3 {α : Type} : List α → List (List α)
  | [] => []
  | [a] => [[a]]
  | [a, b] => [[a, b]]
  | a :: b :: c :: rest => [a, b, c] :: groupsOf3 rest

/-- Result of one processBtn handler run (script.js:318-362).  `notice` is
the success notification of line 354 (`Successfully processed N file(s)`),
`errorShown` the notification of the outer catch (line 358) — the inner
closures swallow every error, so `Promise.all` never rejects and the catch
is unreachable; `btnDisabled` is the button's disabled flag after the
`finally` of line 359-361; `remoteCalled` lists the items whose closure
dispatched a remote call. -/
structure ProcRunResult (ι : Type) where
  finalStates : List (ι × ItemState)
  successCount : Nat
  notice : Option String
  errorShown : Option String
  btnDisabled : Bool
  remoteCalled : List ι
deriving Repr

/-- The processBtn click handler's batch loop (script.js:331-361): the
selected items are processed in groups of 3 via `Promise.all`; each item's
lookup goes through `getFileFromItem`; the `finally` re-enables the button. -/
def processBtnRun {ι : Type} (items : List ι) (primary : ι → Option JsFile)
    (globalReg : Option (ι → Option JsFile)) (remote : ι → RemoteOutcome) :
    ProcRunResult ι :=
  let lookup : ι → Option JsFile := getFileFromItem primary globalReg
  let groups := groupsOf3 items
  let finalStates := groups.foldl
    (fun acc g => acc ++ g.map fun it =>
      (it, procItemFinal (lookup it) (remote it))) []
  let successCount := groups.foldl
    (fun n g => n + g.countP fun it =>
      (processBtnClosure (lookup it) (remote it)).2) 0
  let remoteCalled := groups.foldl
    (fun acc g => acc ++ g.filter fun it =>
      decide (ItemEv.remoteCall ∈ (processBtnClosure (lookup it) (remote it)).1)) []
  { finalStates := finalStates
    successCount := successCount
    notice :=
      if successCount > 0 then
        some ("Successfully processed " ++ toString successCount ++ " file(s)")
      else none
    errorShown := none
    btnDisabled := false
    remoteCalled := remoteCalled }

/-- One rendered block of the combined summary (script.js:614-617). -/
def renderSummaryItem (d : UploadData) : String :=
  "<div class=\"summary-item\"><h3><i class=\"fas fa-file-alt\"></i> "
    ++ d.filename ++ "</h3><div class=\"summary-content\">" ++ d.summary
    ++ "</div></div>"

/-- Combined summary (script.js:613-618): blocks joined by `<hr>`. -/
def renderCombined (ds : List UploadData) : String :=
  String.intercalate "<hr>" (ds.map renderSummaryItem)

/-- Result of the summarize handler's batch branch (script.js:585-619
together with the outer catch of 651-658 and the `finally` of 659-662).
`settled` are the `Promise.allSettled` results in item order; `output` is
`outputText.innerHTML` when the combined summary was rendered; `errorShown`
the notification of the outer catch; `loadingHidden` and `btnDisabled`
reflect the `finally`. -/
structure SummarizeRunResult (ι : Type) where
  itemStates : List (ι × ItemState)
  settled : List (Except String UploadData)
  output : Option String
  errorShown : Option String
  loadingHidden : Bool
  btnDisabled : Bool
  remoteCalled : List ι
deriving Repr

/-- The summarize handler's batch branch: groups of `maxConcurrent = 3`,
`Promise.allSettled` per group, results concatenated; zero fulfilled
results throw `No files were successfully processed`, which the outer catch
shows; otherwise the combined summary is rendered.  The per-item lookup is
`fileMap.get(fileItem)` (script.js:591): the `globalReg` parameter is
deliberately present but unused, mirroring that this branch never consults
`window.__fileMap`. -/
def summarizeBatchRun {ι : Type} (items : List ι)
    (primary : ι → Option JsFile) (globalReg : Option (ι → Option JsFile))
    (remote : ι → RemoteOutcome) : SummarizeRunResult ι :=
  let groups := groupsOf3 items
  let itemStates := groups.foldl
    (fun acc g => acc ++ g.map fun it =>
      (it, sumItemFinal (primary it) (remote it))) []
  let settled := groups.foldl
    (fun acc g => acc ++ g.map fun it =>
      (summarizeBatchClosure (primary it) (remote it)).2) []
  let remoteCalled := groups.foldl
    (fun acc g => acc ++ g.filter fun it =>
      decide (ItemEv.remoteCall ∈ (summarizeBatchClosure (primary it) (remote it)).1)) []
  let successes := settled.filterMap Except.toOption
  { itemStates := itemStates
    settled := settled
    output := if successes.isEmpty then none else some (renderCombined successes)
    errorShown :=
      if successes.isEmpty then some "No files were successfully processed"
      else none
    loadingHidden := true
    btnDisabled := false
    remoteCalled := remoteCalled }

/-- Dispatch/settle events of the batch loops' promise structure. -/
inductive BatchEv (ι : Type)
  | dispatch (it : ι)
  | settle (it : ι)
deriving DecidableEq, Repr

/-- Whether an event is a dispatch. -/
def isDispatch {ι : Type} : BatchEv ι → Bool
  | BatchEv.dispatch _ => true
  | BatchEv.settle _ => false

/-- Whether an event is a settlement. -/
def isSettle {ι : Type} : BatchEv ι → Bool
  | BatchEv.dispatch _ => false
  | BatchEv.settle _ => true

/-- Event trace of one group: `Promise.all(batch.map f))` (script.js:338) and
`Promise.allSettled(promises)` (script.js:600) start every closure of the
group in item order, and the `await` resumes the loop only after all of them
settled; the settle order within the group is unconstrained and is a
parameter. -/
def groupTrace {ι : Type} (g settleOrder : List ι) : List (BatchEv ι) :=
  g.map BatchEv.dispatch ++ settleOrder.map BatchEv.settle

/-- Event trace of a whole batch run: group after group, each group awaited
to completion before the next is dispatched (script.js:336-351, 588-602). -/
def batchTrace {ι : Type} : List (List ι × List ι) → List (BatchEv ι)
  | [] => []
  | (g, s) :: rest => groupTrace g s ++ batchTrace rest

/-- Trace of the coordinator on an item sequence, given a settle order per
group. -/
def coordinatorTrace {ι : Type} (items : List ι) (settles : List (List ι)) :
    List (BatchEv ι) :=
  batchTrace ((groupsOf3 items).zip settles)

/-- Number of remote operations in flight after a sequence of events:
dispatches minus settlements. -/
def inFlight {ι : Type} (t : List (BatchEv ι)) : ℤ :=
  (t.countP isDispatch : ℤ) - (t.countP isSettle : ℤ)

/-- Model of `Math.round` on an exact rational: round half toward positive infinity. -/
def jsRound (q : ℚ) : ℤ := ⌊q + 1 / 2⌋

/-- Ratio branch of `updateStats` (script.js:461-465): when the original
length is positive, the value handed to the ratio display (the final frame
of `animateNumber` renders exactly its `to` argument) is
`Math.round((1 - summaryLength / originalLength) * 100)`; otherwise the
display is not updated. -/
def updateStatsRatio (originalLength summaryLength : ℚ) : Option ℤ :=
  if 0 < originalLength then
    some (jsRound ((1 - summaryLength / originalLength) * 100))
  else none

/-- Modelled from the spec: the compression-ratio formula of §4.5,
`round((1 - summaryWordCount/originalWordCount) * 100)`, for comparison
with the code's `updateStatsRatio`. -/
def specCompressionRatio (originalWordCount summaryWordCount : ℚ) : ℤ :=
  jsRound ((1 - summaryWordCount / originalWordCount) * 100)

/-- The groups partition the item sequence: concatenating them in order
gives back the original sequence. -/
theorem groupsOf3_flatten {α : Type} (xs : List α) :
    (groupsOf3 xs).flatten = xs := by
  induction xs using groupsOf3.induct with
  | case1 => rfl
  | case2 a => rfl
  | case3 a b => rfl
  | case4 a b c rest ih => simp [groupsOf3, ih]

/-- Every group has at most 3 elements. -/
theorem groupsOf3_length_le {α : Type} (xs : List α) :
    ∀ g ∈ groupsOf3 xs, g.length ≤ 3 := by
  induction xs using groupsOf3.induct with
  | case1 => intro g hg; cases hg
  | case2 a =>
    intro g hg
    simp only [groupsOf3, List.mem_singleton] at hg
    subst hg; simp
  | case3 a b =>
    intro g hg
    simp only [groupsOf3, List.mem_singleton] at hg
    subst hg; simp
  | case4 a b c rest ih =>
    intro g hg
    rcases List.mem_cons.mp hg with h | h
    · subst h; simp
    · exact ih g h

theorem foldl_append_map {α β : Type} (ll : List (List α)) (f : α → β)
    (a : List β) :
    ll.foldl (fun acc g => acc ++ g.map f) a = a ++ ll.flatten.map f := by
  induction ll generalizing a with
  | nil => simp
  | cons g rest ih => simp [List.foldl_cons, ih]

theorem foldl_add_countP {α : Type} (ll : List (List α)) (p : α → Bool)
    (n : ℕ) :
    ll.foldl (fun m g => m + g.countP p) n = n + ll.flatten.countP p := by
  induction ll generalizing n with
  | nil => simp
  | cons g rest ih => simp [List.foldl_cons, ih, List.countP_append]; ring

theorem foldl_append_filter {α : Type} (ll : List (List α)) (p : α → Bool)
    (a : List α) :
    ll.foldl (fun acc g => acc ++ g.filter p) a = a ++ ll.flatten.filter p := by
  induction ll generalizing a with
  | nil => simp
  | cons g rest ih => simp [List.foldl_cons, ih, List.filter_append]

theorem countP_map_dispatch {ι : Type} (g : List ι) :
    (g.map (BatchEv.dispatch)).countP isDispatch = g.length := by
  induction g with
  | nil => rfl
  | cons a t ih => simp [List.countP_cons, isDispatch, ih]

theorem countP_map_dispatch_settle {ι : Type} (g : List ι) :
    (g.map (BatchEv.dispatch)).countP isSettle = 0 := by
  induction g with
  | nil => rfl
  | cons a t ih => simp [List.countP_cons, isSettle, ih]

theorem countP_map_settle {ι : Type} (g : List ι) :
    (g.map (BatchEv.settle)).countP isSettle = g.length := by
  induction g with
  | nil => rfl
  | cons a t ih => simp [List.countP_cons, isSettle, ih]

theorem countP_map_settle_dispatch {ι : Type} (g : List ι) :
    (g.map (BatchEv.settle)).countP isDispatch = 0 := by
  induction g with
  | nil => rfl
  | cons a t ih => simp [List.countP_cons, isDispatch, ih]

theorem inFlight_append {ι : Type} (a b : List (BatchEv ι)) :
    inFlight (a ++ b) = inFlight a + inFlight b := by
  simp [inFlight, List.countP_append]
  ring

theorem inFlight_dispatch_take {ι : Type} (g : List ι) (n : ℕ) :
    inFlight ((g.map BatchEv.dispatch).take n) = (min n g.length : ℕ) := by
  have h : (g.map BatchEv.dispatch).take n = (g.take n).map BatchEv.dispatch :=
    (List.map_take BatchEv.dispatch g n).symm
  rw [h]
  simp only [inFlight, countP_map_dispatch, countP_map_dispatch_settle,
    List.length_take]
  omega

theorem inFlight_settle_take {ι : Type} (s : List ι) (n : ℕ) :
    inFlight ((s.map BatchEv.settle).take n) = -((min n s.length : ℕ) : ℤ) := by
  have h : (s.map BatchEv.settle).take n = (s.take n).map BatchEv.settle :=
    (List.map_take BatchEv.settle s n).symm
  rw [h]
  simp only [inFlight, countP_map_settle, countP_map_settle_dispatch,
    List.length_take]
  omega

/-- Within one group's segment the number of in-flight operations stays
between 0 and the group size (at most 3). -/
theorem groupTrace_take_bound {ι : Type} (g s : List ι)
    (hls : s.length = g.length) (hg : g.length ≤ 3) (n : ℕ) :
    0 ≤ inFlight ((groupTrace g s).take n) ∧
      inFlight ((groupTrace g s).take n) ≤ 3 := by
  unfold groupTrace
  rw [List.take_append_eq_append_take, inFlight_append,
    inFlight_dispatch_take, inFlight_settle_take]
  rw [List.length_map]
  constructor <;> omega

/-- A full group segment leaves nothing in flight. -/
theorem groupTrace_inFlight_zero {ι : Type} (g s : List ι)
    (hls : s.length = g.length) : inFlight (groupTrace g s) = 0 := by
  unfold groupTrace
  rw [inFlight_append]
  simp only [inFlight, countP_map_dispatch, countP_map_dispatch_settle,
    countP_map_settle, countP_map_settle_dispatch]
  omega

/-- A whole batch trace leaves nothing in flight. -/
theorem batchTrace_inFlight_zero {ι : Type} (ps : List (List ι × List ι))
    (h : ∀ p ∈ ps, p.2.length = p.1.length) :
    inFlight (batchTrace ps) = 0 := by
  induction ps with
  | nil => simp [batchTrace, inFlight]
  | cons p rest ih =>
    rw [batchTrace, inFlight_append]
    rw [groupTrace_inFlight_zero p.1 p.2 (h p (List.mem_cons_self p rest))]
    rw [ih fun q hq => h q (List.mem_cons_of_mem p hq)]
    norm_num

/-- Along every prefix of a batch trace whose groups have matching settle
lists of at most 3 items, the in-flight count stays between 0 and 3. -/
theorem batchTrace_take_bound {ι : Type} (ps : List (List ι × List ι))
    (h : ∀ p ∈ ps, p.2.length = p.1.length ∧ p.1.length ≤ 3) (n : ℕ) :
    0 ≤ inFlight ((batchTrace ps).take n) ∧
      inFlight ((batchTrace ps).take n) ≤ 3 := by
  induction ps generalizing n with
  | nil => simp [batchTrace, inFlight]
  | cons p rest ih =>
    rw [batchTrace]
    rw [List.take_append_eq_append_take, inFlight_append]
    have hp := h p (List.mem_cons_self p rest)
    have h1 := groupTrace_take_bound p.1 p.2 hp.1 hp.2 n
    by_cases hn : n ≤ (groupTrace p.1 p.2).length
    · have hz : n - (groupTrace p.1 p.2).length = 0 := Nat.sub_eq_zero_of_le hn
      rw [hz]
      simpa [inFlight] using h1
    · have hfull : (groupTrace p.1 p.2).take n = groupTrace p.1 p.2 :=
        List.take_of_length_le (le_of_lt (Nat.lt_of_not_le hn))
      rw [hfull, groupTrace_inFlight_zero p.1 p.2 hp.1]
      have h2 := ih (fun q hq => h q (List.mem_cons_of_mem p hq))
        (n - (groupTrace p.1 p.2).length)
      constructor <;> omega

theorem processBtnRun_finalStates {ι : Type} (items : List ι)
    (primary : ι → Option JsFile) (globalReg : Option (ι → Option JsFile))
    (remote : ι → RemoteOutcome) :
    (processBtnRun items primary globalReg remote).finalStates
      = items.map fun it =>
          (it, procItemFinal (getFileFromItem primary globalReg it) (remote it)) := by
  simp only [processBtnRun]
  rw [foldl_append_map, groupsOf3_flatten]
  simp

theorem processBtnRun_successCount {ι : Type} (items : List ι)
    (primary : ι → Option JsFile) (globalReg : Option (ι → Option JsFile))
    (remote : ι → RemoteOutcome) :
    (processBtnRun items primary globalReg remote).successCount
      = items.countP fun it =>
          (processBtnClosure (getFileFromItem primary globalReg it) (remote it)).2 := by
  simp only [processBtnRun]
  rw [foldl_add_countP, groupsOf3_flatten]
  simp

theorem processBtnRun_remoteCalled {ι : Type} (items : List ι)
    (primary : ι → Option JsFile) (globalReg : Option (ι → Option JsFile))
    (remote : ι → RemoteOutcome) :
    (processBtnRun items primary globalReg remote).remoteCalled
      = items.filter fun it =>
          decide (ItemEv.remoteCall ∈
            (processBtnClosure (getFileFromItem primary globalReg it) (remote it)).1) := by
  simp only [processBtnRun]
  rw [foldl_append_filter, groupsOf3_flatten]
  simp

theorem summarizeBatchRun_itemStates {ι : Type} (items : List ι)
    (primary : ι → Option JsFile) (globalReg : Option (ι → Option JsFile))
    (remote : ι → RemoteOutcome) :
    (summarizeBatchRun items primary globalReg remote).itemStates
      = items.map fun it => (it, sumItemFinal (primary it) (remote it)) := by
  simp only [summarizeBatchRun]
  rw [foldl_append_map, groupsOf3_flatten]
  simp

theorem summarizeBatchRun_settled {ι : Type} (items : List ι)
    (primary : ι → Option JsFile) (globalReg : Option (ι → Option JsFile))
    (remote : ι → RemoteOutcome) :
    (summarizeBatchRun items primary globalReg remote).settled
      = items.map fun it =>
          (summarizeBatchClosure (primary it) (remote it)).2 := by
  simp only [summarizeBatchRun]
  rw [foldl_append_map, groupsOf3_flatten]
  simp

theorem summarizeBatchRun_remoteCalled {ι : Type} (items : List ι)
    (primary : ι → Option JsFile) (globalReg : Option (ι → Option JsFile))
    (remote : ι → RemoteOutcome) :
    (summarizeBatchRun items primary globalReg remote).remoteCalled
      = items.filter fun it =>
          decide (ItemEv.remoteCall ∈
            (summarizeBatchClosure (primary it) (remote it)).1) := by
  simp only [summarizeBatchRun]
  rw [foldl_append_filter, groupsOf3_flatten]
  simp

theorem summarizeBatchRun_errorShown {ι : Type} (items : List ι)
    (primary : ι → Option JsFile) (globalReg : Option (ι → Option JsFile))
    (remote : ι → RemoteOutcome) :
    (summarizeBatchRun items primary globalReg remote).errorShown
      = if ((summarizeBatchRun items primary globalReg remote).settled.filterMap
            Except.toOption).isEmpty then
          some "No files were successfully processed"
        else none := by
  simp only [summarizeBatchRun]

theorem summarizeBatchRun_output {ι : Type} (items : List ι)
    (primary : ι → Option JsFile) (globalReg : Option (ι → Option JsFile))
    (remote : ι → RemoteOutcome) :
    (summarizeBatchRun items primary globalReg remote).output
      = if ((summarizeBatchRun items primary globalReg remote).settled.filterMap
            Except.toOption).isEmpty then none
        else
          some (renderCombined
            ((summarizeBatchRun items primary globalReg remote).settled.filterMap
              Except.toOption)) := by
  simp only [summarizeBatchRun]

theorem procItemFinal_none (r : RemoteOutcome) :
    procItemFinal none r = { status := "Error: File not found", progress := 0 } :=
  rfl

theorem procItemFinal_ok (f : JsFile) (d : UploadData) :
    procItemFinal (some f) (RemoteOutcome.ok d)
      = { status := "Completed", progress := 100 } := rfl

theorem procItemFinal_err (f : JsFile) (m : String) :
    procItemFinal (some f) (RemoteOutcome.err m)
      = { status := "Error: " ++ m, progress := 0 } := rfl

theorem sumItemFinal_none (r : RemoteOutcome) :
    sumItemFinal none r = { status := "Error: No file found", progress := 0 } :=
  rfl

theorem sumItemFinal_ok (f : JsFile) (d : UploadData) :
    sumItemFinal (some f) (RemoteOutcome.ok d)
      = { status := "Completed", progress := 100 } := rfl

theorem sumItemFinal_err (f : JsFile) (m : String) :
    sumItemFinal (some f) (RemoteOutcome.err m)
      = { status := "Error: " ++ m, progress := 0 } := rfl

/-- Claim C1: for every batch request, the coordinator partitions the item
sequence into contiguous groups of 3 in original order, dispatches the
upload operation for every item of a group at the same time, and never
dispatches any item of group N+1 before every promise of group N has
settled; hence at no instant are more than 3 remote calls in flight (for 7
items: 3, then 3, then 1).  The trace is parameterised by an arbitrary
settle order per group (a permutation of the group); the conjuncts state:
the groups concatenate back to the original sequence, every group has at
most 3 items, the in-flight count is 0 at every group boundary, every trace
prefix has between 0 and 3 operations in flight, and a 7-item batch yields
group sizes 3, 3, 1. -/
theorem C1_bounded_group_concurrency {ι : Type} (items : List ι)
    (settles : List (List ι))
    (hperm : List.Forall₂ (fun g s => g.Perm s) (groupsOf3 items) settles) :
    (groupsOf3 items).flatten = items
    ∧ (∀ g ∈ groupsOf3 items, g.length ≤ 3)
    ∧ (∀ k, inFlight (batchTrace (((groupsOf3 items).zip settles).take k)) = 0)
    ∧ (∀ n, 0 ≤ inFlight ((coordinatorTrace items settles).take n)
        ∧ inFlight ((coordinatorTrace items settles).take n) ≤ 3)
    ∧ (groupsOf3 (List.range 7)).map List.length = [3, 3, 1] := by
  have hzz := List.forall₂_iff_zip.mp hperm
  have hmem : ∀ p ∈ (groupsOf3 items).zip settles,
      p.2.length = p.1.length ∧ p.1.length ≤ 3 := by
    intro p hp
    obtain ⟨g, s⟩ := p
    have hgs : g.Perm s := hzz.2 hp
    have hin := List.of_mem_zip hp
    exact ⟨hgs.length_eq.symm, groupsOf3_length_le items g hin.1⟩
  refine ⟨groupsOf3_flatten items, groupsOf3_length_le items, ?_, ?_, by decide⟩
  · intro k
    exact batchTrace_inFlight_zero _ fun q hq =>
      (hmem q (List.take_subset k _ hq)).1
  · intro n
    exact batchTrace_take_bound _ hmem n

/-- Witness for C1: a concrete 7-item batch with settle order equal to
dispatch order; the prefix of length 4 (all of group 1 dispatched and one
settlement) has at most 3 operations in flight. -/
theorem C1_bounded_group_concurrency_witness :
    0 ≤ inFlight ((coordinatorTrace (List.range 7) (groupsOf3 (List.range 7))).take 4)
    ∧ inFlight ((coordinatorTrace (List.range 7) (groupsOf3 (List.range 7))).take 4) ≤ 3 :=
  (C1_bounded_group_concurrency (List.range 7) (groupsOf3 (List.range 7))
    (List.forall₂_same.mpr fun x _ => List.Perm.refl x)).2.2.2.1 4

/-- Witness constants: an accepted file and a successful upload payload. -/
def wfile : JsFile := { name := "a.txt", size := 3, type := "text/plain" }

def wdata : UploadData := { filename := "a.txt", summary := "S" }

/-- Claim C2: a failing item never cancels or fails its siblings or later
groups.  Conjuncts: in both handlers every item's final state and
settlement is a function of that item's own lookup and remote outcome
alone (the oracles of all other items are arbitrary); an item with a
successful lookup and a successful response ends Completed at 100 and its
remote call was dispatched, whatever happened to the others; and a per-item
error thrown inside the processBtn closure is converted into an
`Error: <msg>` status at 0% and a settled (non-rejecting) closure, so it
never escapes the batch run. -/
theorem C2_per_item_failure_isolation {ι : Type} (items : List ι)
    (primary : ι → Option JsFile) (globalReg : Option (ι → Option JsFile))
    (remote : ι → RemoteOutcome) :
    (processBtnRun items primary globalReg remote).finalStates
        = (items.map fun it =>
            (it, procItemFinal (getFileFromItem primary globalReg it) (remote it)))
    ∧ (summarizeBatchRun items primary globalReg remote).itemStates
        = (items.map fun it => (it, sumItemFinal (primary it) (remote it)))
    ∧ (summarizeBatchRun items primary globalReg remote).settled
        = (items.map fun it => (summarizeBatchClosure (primary it) (remote it)).2)
    ∧ (∀ it f d, getFileFromItem primary globalReg it = some f →
        remote it = RemoteOutcome.ok d →
        procItemFinal (getFileFromItem primary globalReg it) (remote it)
            = { status := "Completed", progress := 100 }
        ∧ ItemEv.remoteCall ∈
            (processBtnClosure (getFileFromItem primary globalReg it) (remote it)).1)
    ∧ (∀ it f d, primary it = some f → remote it = RemoteOutcome.ok d →
        sumItemFinal (primary it) (remote it)
            = { status := "Completed", progress := 100 }
        ∧ (summarizeBatchClosure (primary it) (remote it)).2 = Except.ok d)
    ∧ (∀ l r m, (processBtnTry l r).2 = Except.error m →
        (processBtnClosure l r).2 = false
        ∧ runTrace initState (processBtnClosure l r).1
            = { status := "Error: " ++ m, progress := 0 }) := by
  refine ⟨processBtnRun_finalStates items primary globalReg remote,
    summarizeBatchRun_itemStates items primary globalReg remote,
    summarizeBatchRun_settled items primary globalReg remote, ?_, ?_, ?_⟩
  · intro it f d hl hr
    rw [hl, hr]
    exact ⟨procItemFinal_ok f d, by
      simp [processBtnClosure, processBtnTry, uploadFileTrace, uploadFileResult]⟩
  · intro it f d hl hr
    rw [hl, hr]
    exact ⟨sumItemFinal_ok f d, rfl⟩
  · intro l r m herr
    cases l with
    | none =>
      simp only [processBtnTry] at herr
      cases herr
      constructor
      · rfl
      · rfl
    | some f =>
      cases r with
      | ok d => simp [processBtnTry, uploadFileResult] at herr
      | err m' =>
        simp only [processBtnTry, uploadFileResult, Except.error.injEq] at herr
        subst herr
        constructor
        · rfl
        · rfl

/-- Witness for C2: two items, the first succeeding and the second failing;
the first still ends Completed at 100 with its remote call dispatched. -/
theorem C2_per_item_failure_isolation_witness :
    procItemFinal
        (getFileFromItem (fun _ : ℕ => some wfile) none 0)
        ((fun n : ℕ => if n = 0 then RemoteOutcome.ok wdata
          else RemoteOutcome.err "boom") 0)
      = { status := "Completed", progress := 100 }
    ∧ ItemEv.remoteCall ∈
        (processBtnClosure
          (getFileFromItem (fun _ : ℕ => some wfile) none 0)
          ((fun n : ℕ => if n = 0 then RemoteOutcome.ok wdata
            else RemoteOutcome.err "boom") 0)).1 :=
  (C2_per_item_failure_isolation [0, 1] (fun _ => some wfile) none
    (fun n => if n = 0 then RemoteOutcome.ok wdata
      else RemoteOutcome.err "boom")).2.2.2.1 0 wfile wdata rfl rfl

/-- Claim C3 counterexample: in the summarize handler's batch branch a
registry miss is recorded as `Error: No file found`, not as the claimed
`File not found`: with one item missing from the registry the recorded
state and settled rejection carry the reason `No file found`. -/
theorem C3_registry_miss_counterexample :
    (summarizeBatchRun [0] (fun _ : ℕ => (none : Option JsFile)) none
        (fun _ => RemoteOutcome.ok wdata)).itemStates
      = [(0, { status := "Error: No file found", progress := 0 })]
    ∧ (summarizeBatchRun [0] (fun _ : ℕ => (none : Option JsFile)) none
        (fun _ => RemoteOutcome.ok wdata)).settled
      = [Except.error "No file found"]
    ∧ "No file found" ≠ "File not found" := by
  refine ⟨rfl, rfl, by decide⟩

/-- Claim C3, amended: an item whose payload lookup fails at dispatch time
is recorded as failed without any remote call and without throwing out of
the batch run; the recorded reason is `File not found` in the processBtn
handler but `No file found` in the summarize handler's batch branch. -/
theorem C3_amended_registry_miss {ι : Type} (items : List ι)
    (primary : ι → Option JsFile) (globalReg : Option (ι → Option JsFile))
    (remote : ι → RemoteOutcome) (it : ι)
    (hmiss : getFileFromItem primary globalReg it = none) :
    procItemFinal (getFileFromItem primary globalReg it) (remote it)
        = { status := "Error: File not found", progress := 0 }
    ∧ (processBtnClosure (getFileFromItem primary globalReg it) (remote it)).2
        = false
    ∧ it ∉ (processBtnRun items primary globalReg remote).remoteCalled
    ∧ (primary it = none →
        sumItemFinal (primary it) (remote it)
            = { status := "Error: No file found", progress := 0 }
        ∧ (summarizeBatchClosure (primary it) (remote it)).2
            = Except.error "No file found"
        ∧ it ∉ (summarizeBatchRun items primary globalReg remote).remoteCalled) := by
  refine ⟨by rw [hmiss]; exact procItemFinal_none _, by rw [hmiss]; rfl, ?_, ?_⟩
  · intro hmem
    rw [processBtnRun_remoteCalled] at hmem
    have hpred := (List.mem_filter.mp hmem).2
    rw [hmiss] at hpred
    simp [processBtnClosure, processBtnTry] at hpred
  · intro hp
    refine ⟨by rw [hp]; exact sumItemFinal_none _, by rw [hp]; rfl, ?_⟩
    intro hmem
    rw [summarizeBatchRun_remoteCalled] at hmem
    have hpred := (List.mem_filter.mp hmem).2
    rw [hp] at hpred
    simp [summarizeBatchClosure] at hpred

/-- Witness for the amended C3: a single item absent from both registries;
its state is `Error: File not found` in the process handler and
`Error: No file found` in the summarize batch branch, with no remote call
in either. -/
theorem C3_amended_registry_miss_witness :
    procItemFinal
        (getFileFromItem (fun _ : ℕ => (none : Option JsFile)) none 0)
        ((fun _ : ℕ => RemoteOutcome.ok wdata) 0)
      = { status := "Error: File not found", progress := 0 }
    ∧ (0 : ℕ) ∉ (processBtnRun [0] (fun _ : ℕ => (none : Option JsFile)) none
        (fun _ => RemoteOutcome.ok wdata)).remoteCalled
    ∧ sumItemFinal ((fun _ : ℕ => (none : Option JsFile)) 0)
        ((fun _ : ℕ => RemoteOutcome.ok wdata) 0)
      = { status := "Error: No file found", progress := 0 } := by
  have h := C3_amended_registry_miss [0] (fun _ : ℕ => (none : Option JsFile))
    none (fun _ => RemoteOutcome.ok wdata) 0 rfl
  exact ⟨h.1, h.2.2.1, (h.2.2.2 rfl).1⟩

/-- Claim C4 counterexample: the processBtn handler raises no batch-level
error at all: a one-item batch whose only item fails settles with zero
successes, yet no error notification is raised (and no success notice
either) — refuting `error raised iff zero successes` for that handler. -/
theorem C4_aggregate_failure_counterexample :
    (processBtnRun [0] (fun _ : ℕ => some wfile) none
        (fun _ => RemoteOutcome.err "boom")).successCount = 0
    ∧ (processBtnRun [0] (fun _ : ℕ => some wfile) none
        (fun _ => RemoteOutcome.err "boom")).errorShown = none
    ∧ (processBtnRun [0] (fun _ : ℕ => some wfile) none
        (fun _ => RemoteOutcome.err "boom")).notice = none :=
  ⟨rfl, rfl, rfl⟩

/-- Claim C4, amended: in the summarize handler's batch branch, the
batch-level error `No files were successfully processed` is raised iff the
settled batch has zero fulfilled items, and with at least one success the
combined result of the fulfilled items is rendered with no top-level error;
the processBtn handler, by contrast, never raises a batch-level error — it
shows a success notice iff at least one item succeeded. -/
theorem C4_amended_aggregate_failure {ι : Type} (items : List ι)
    (primary : ι → Option JsFile) (globalReg : Option (ι → Option JsFile))
    (remote : ι → RemoteOutcome) :
    ((summarizeBatchRun items primary globalReg remote).errorShown
        = some "No files were successfully processed"
      ↔ (summarizeBatchRun items primary globalReg remote).settled.filterMap
          Except.toOption = [])
    ∧ ((summarizeBatchRun items primary globalReg remote).settled.filterMap
          Except.toOption ≠ [] →
        (summarizeBatchRun items primary globalReg remote).output
            = some (renderCombined
                ((summarizeBatchRun items primary globalReg remote).settled.filterMap
                  Except.toOption))
        ∧ (summarizeBatchRun items primary globalReg remote).errorShown = none)
    ∧ (processBtnRun items primary globalReg remote).errorShown = none
    ∧ ((processBtnRun items primary globalReg remote).notice.isSome
        ↔ 0 < (processBtnRun items primary globalReg remote).successCount) := by
  refine ⟨?_, ?_, rfl, ?_⟩
  · rw [summarizeBatchRun_errorShown]
    by_cases hc : ((summarizeBatchRun items primary globalReg remote).settled.filterMap
        Except.toOption).isEmpty
    · simp [hc, List.isEmpty_iff.mp hc]
    · rw [if_neg hc]
      simp only [List.isEmpty_iff] at hc
      simp [hc]
  · intro hne
    rw [summarizeBatchRun_output, summarizeBatchRun_errorShown]
    have hc : ((summarizeBatchRun items primary globalReg remote).settled.filterMap
        Except.toOption).isEmpty = false := by
      simp [List.isEmpty_iff, hne]
    rw [hc]
    simp
  · simp only [processBtnRun]
    by_cases hc : 0 < (groupsOf3 items).foldl
        (fun n g => n + g.countP fun it =>
          (processBtnClosure (getFileFromItem primary globalReg it) (remote it)).2) 0
    · simp [hc]
    · simp [Nat.not_lt, Nat.le_zero] at hc
      simp [hc]

/-- Witness for the amended C4: a one-item batch whose item succeeds; the
summarize batch branch renders the combined summary and shows no error. -/
theorem C4_amended_aggregate_failure_witness :
    (summarizeBatchRun [0] (fun _ : ℕ => some wfile) none
        (fun _ => RemoteOutcome.ok wdata)).output
      = some (renderCombined
          ((summarizeBatchRun [0] (fun _ : ℕ => some wfile) none
            (fun _ => RemoteOutcome.ok wdata)).settled.filterMap Except.toOption))
    ∧ (summarizeBatchRun [0] (fun _ : ℕ => some wfile) none
        (fun _ => RemoteOutcome.ok wdata)).errorShown = none :=
  (C4_amended_aggregate_failure [0] (fun _ => some wfile) none
    (fun _ => RemoteOutcome.ok wdata)).2.1 (by decide)

/-- Claim C5: validation accepts a file iff its size is at most
10,485,760 bytes and its MIME type is in the allowed set; the reported
reason matches the violated rule, with the size rule checked independently
of the type rule (an oversized file is reported as oversized whatever its
type).  Stated for `validateFile` of script.js and for the equivalent check
of `fileHandler.handleFiles`. -/
theorem C5_validation_policy (f : JsFile) (es : List String) :
    ((validateFile f es).1 = true ↔ (f.size ≤ maxFileSize ∧ f.type ∈ acceptedTypes))
    ∧ (f.size > maxFileSize →
        (validateFile f es).2 = es ++ ["File size must be less than 10MB"])
    ∧ (f.size ≤ maxFileSize → f.type ∉ acceptedTypes →
        (validateFile f es).2 = es ++ ["File type not supported"])
    ∧ maxFileSize = 10485760
    ∧ (fhCheck f = none ↔ (f.size ≤ maxFileSize ∧ f.type ∈ acceptedTypes))
    ∧ (f.size > maxFileSize → fhCheck f = some RejectReason.sizeExceeded)
    ∧ (f.size ≤ maxFileSize → f.type ∉ acceptedTypes →
        fhCheck f = some RejectReason.unsupportedType) := by
  refine ⟨?_, ?_, ?_, by decide, ?_, ?_, ?_⟩
  · unfold validateFile
    split_ifs with h1 h2
    · simp
      omega
    · simp at h2 ⊢
      tauto
    · simp at h2 ⊢
      exact ⟨by omega, h2⟩
  · intro h
    unfold validateFile
    rw [if_pos h]
  · intro h1 h2
    unfold validateFile
    rw [if_neg (by omega)]
    rw [if_pos (by simpa [List.elem_iff] using h2)]
  · unfold fhCheck
    split_ifs with h1 h2
    · simp
      omega
    · simp at h2 ⊢
      tauto
    · simp at h2 ⊢
      exact ⟨by omega, h2⟩
  · intro h
    unfold fhCheck
    rw [if_pos h]
  · intro h1 h2
    unfold fhCheck
    rw [if_neg (by omega)]
    rw [if_pos (by simpa [List.elem_iff] using h2)]

/-- A candidate one byte over the size limit, of an allowed type. -/
def oversized : JsFile :=
  { name := "big.bin", size := 10485761, type := "text/plain" }

/-- Witness for C5: the oversized candidate is rejected with the size
message; an unsupported type of acceptable size is rejected with the type
message. -/
theorem C5_validation_policy_witness :
    (validateFile oversized []).2 = [] ++ ["File size must be less than 10MB"]
    ∧ (validateFile { name := "x.zip", size := 3, type := "application/zip" } []).2
      = [] ++ ["File type not supported"] :=
  ⟨(C5_validation_policy oversized []).2.1 (by decide),
   (C5_validation_policy { name := "x.zip", size := 3, type := "application/zip" } []).2.2.1
     (by decide) (by decide)⟩

/-- Claim C6 counterexample: the summarize handler's batch branch does not
consult the ambient/global registry: with a payload present only in the
global registry, the two-tier lookup finds it, yet the batch branch records
`Error: No file found` for the item. -/
theorem C6_lookup_fallback_counterexample :
    getFileFromItem (fun _ : ℕ => (none : Option JsFile))
        (some fun _ => some wfile) 0 = some wfile
    ∧ (summarizeBatchRun [0] (fun _ : ℕ => (none : Option JsFile))
        (some fun _ => some wfile) (fun _ => RemoteOutcome.ok wdata)).itemStates
      = [(0, { status := "Error: No file found", progress := 0 })] :=
  ⟨rfl, rfl⟩

/-- Claim C6, amended: `getFileFromItem` — used by the processBtn handler —
consults the primary registry first and the ambient/global registry only on
a primary miss, returning NotFound only when both miss; the summarize
handler's batch branch, however, consults only the primary registry: its
run is unchanged under any replacement of the global registry. -/
theorem C6_amended_lookup_fallback {ι : Type} (items : List ι)
    (primary : ι → Option JsFile) (g : ι → Option JsFile)
    (remote : ι → RemoteOutcome) (it : ι) :
    (∀ f, primary it = some f → getFileFromItem primary (some g) it = some f)
    ∧ (primary it = none → getFileFromItem primary (some g) it = g it)
    ∧ (getFileFromItem primary (some g) it = none
        ↔ primary it = none ∧ g it = none)
    ∧ getFileFromItem primary none it = primary it
    ∧ (∀ g1 g2 : Option (ι → Option JsFile),
        summarizeBatchRun items primary g1 remote
          = summarizeBatchRun items primary g2 remote)
    ∧ (processBtnRun items primary (some g) remote).finalStates
        = (items.map fun i =>
            (i, procItemFinal (getFileFromItem primary (some g) i) (remote i))) := by
  refine ⟨?_, ?_, ?_, ?_, fun g1 g2 => rfl,
    processBtnRun_finalStates items primary (some g) remote⟩
  · intro f hf
    unfold getFileFromItem
    rw [hf]
  · intro hn
    unfold getFileFromItem
    rw [hn]
  · unfold getFileFromItem
    cases hp : primary it with
    | some f => simp
    | none => cases hg : g it with
      | some f => simp [hp, hg]
      | none => simp [hp, hg]
  · unfold getFileFromItem
    cases hp : primary it with
    | some f => rfl
    | none => rfl

/-- Witness for the amended C6: with an empty primary registry the two-tier
lookup returns the global registry's association. -/
theorem C6_amended_lookup_fallback_witness :
    getFileFromItem (fun _ : ℕ => (none : Option JsFile))
        (some fun _ => some wfile) 0 = (fun _ : ℕ => some wfile) 0 :=
  (C6_amended_lookup_fallback [0] (fun _ : ℕ => (none : Option JsFile))
    (fun _ => some wfile) (fun _ => RemoteOutcome.ok wdata) 0).2.1 rfl

/-- Claim C7 counterexample: `processFile` — the upload operation of the
summarize handler — never sets status `Uploading`: the statuses it writes
on a successful run are `Processing...` then `Completed`. -/
theorem C7_status_counterexample :
    statusWrites (processFileTrace (RemoteOutcome.ok wdata))
      = ["Processing...", "Completed"]
    ∧ "Uploading..." ∉ statusWrites (processFileTrace (RemoteOutcome.ok wdata)) := by
  refine ⟨rfl, by decide⟩

/-- Claim C7, amended: before dispatching the remote call `uploadFile`
(processBtn handler) sets status `Uploading...` at 30%, while `processFile`
(summarize handler) sets `Processing...` at 50%; in both, success yields
`Completed` at 100 and failure yields `Error: <message>` with progress
reset to 0. -/
theorem C7_amended_status_transitions (o : RemoteOutcome) :
    (uploadFileTrace o).take 2
        = [ItemEv.setStatus "Uploading..." 30, ItemEv.remoteCall]
    ∧ (processFileTrace o).take 2
        = [ItemEv.setStatus "Processing..." 50, ItemEv.remoteCall]
    ∧ (∀ d, o = RemoteOutcome.ok d →
        runTrace initState (uploadFileTrace o)
            = { status := "Completed", progress := 100 }
        ∧ runTrace initState (processFileTrace o)
            = { status := "Completed", progress := 100 })
    ∧ (∀ m, o = RemoteOutcome.err m →
        runTrace initState (uploadFileTrace o)
            = { status := "Error: " ++ m, progress := 0 }
        ∧ runTrace initState (processFileTrace o)
            = { status := "Error: " ++ m, progress := 0 }) := by
  cases o with
  | ok d =>
    refine ⟨rfl, rfl, fun d' hd => ⟨rfl, rfl⟩, fun m hm => ?_⟩
    cases hm
  | err m =>
    refine ⟨rfl, rfl, fun d' hd => ?_, fun m' hm => ?_⟩
    · cases hd
    · cases hm
      exact ⟨rfl, rfl⟩

/-- Witness for the amended C7: on a successful outcome both operations end
Completed at 100 (and the pre-dispatch writes are as stated). -/
theorem C7_amended_status_transitions_witness :
    runTrace initState (uploadFileTrace (RemoteOutcome.ok wdata))
        = { status := "Completed", progress := 100 }
    ∧ runTrace initState (processFileTrace (RemoteOutcome.ok wdata))
        = { status := "Completed", progress := 100 } :=
  (C7_amended_status_transitions (RemoteOutcome.ok wdata)).2.2.1 wdata rfl

/-- Claim C8: whenever both word counts are available and the original
count is positive, the displayed compression ratio equals
`round((1 - summaryWordCount/originalWordCount) * 100)`; in particular 100
original words and 30 summary words give 70. -/
theorem C8_compression_ratio (o s : ℚ) (h : 0 < o) :
    updateStatsRatio o s = some (specCompressionRatio o s)
    ∧ updateStatsRatio 100 30 = some 70 := by
  constructor
  · simp [updateStatsRatio, specCompressionRatio, h]
  · rw [updateStatsRatio, if_pos (by norm_num)]
    norm_num [jsRound]

/-- Witness for C8: the ratio display for 100 original and 30 summary
words. -/
theorem C8_compression_ratio_witness :
    updateStatsRatio 100 30 = some (specCompressionRatio 100 30)
    ∧ updateStatsRatio 100 30 = some 70 :=
  C8_compression_ratio 100 30 (by norm_num)

/-- Claim C9 counterexample: validating a rejected candidate modifies the
error surface: the oversized file leaves a notification behind, so
validation is not side-effect free. -/
theorem C9_purity_counterexample :
    (validateFile oversized []).2 ≠ ([] : List String) := by
  decide

/-- Claim C9, amended: `validateFile` returns a bare boolean verdict (no
structured reason) and is pure only on acceptance; on rejection it appends
exactly one error notification to the error surface, and it modifies
nothing else (the surface is the only state it touches in the embedding). -/
theorem C9_amended_validation_effect (f : JsFile) (es : List String) :
    ((validateFile f es).1 = true → (validateFile f es).2 = es)
    ∧ ((validateFile f es).1 = false → ∃ m, (validateFile f es).2 = es ++ [m]) := by
  unfold validateFile
  split_ifs with h1 h2
  · exact ⟨fun h => False.elim h,
      fun _ => ⟨"File size must be less than 10MB", rfl⟩⟩
  · exact ⟨fun h => False.elim h,
      fun _ => ⟨"File type not supported", rfl⟩⟩
  · exact ⟨fun _ => rfl, fun h => False.elim h⟩

/-- Witness for the amended C9: the oversized candidate is rejected and
leaves exactly one notification; an accepted candidate leaves the surface
unchanged. -/
theorem C9_amended_validation_effect_witness :
    (∃ m, (validateFile oversized []).2 = [] ++ [m])
    ∧ (validateFile wfile ["old"]).2 = ["old"] :=
  ⟨(C9_amended_validation_effect oversized []).2 (by decide),
   (C9_amended_validation_effect wfile ["old"]).1 (by decide)⟩

/-- Claim C10: both trigger handlers re-enable their controls on completion
regardless of outcome: for every batch, every registry state and every
remote oracle — in particular runs where every item fails, where lookups
miss, and where the zero-success batch error is thrown and caught — the
process button ends enabled and the summarize run ends with the loading
indicator hidden and the button enabled (the `finally` blocks of
script.js:359-361 and script.js:659-662). -/
theorem C10_controls_reenabled {ι : Type} (items : List ι)
    (primary : ι → Option JsFile) (globalReg : Option (ι → Option JsFile))
    (remote : ι → RemoteOutcome) :
    (processBtnRun items primary globalReg remote).btnDisabled = false
    ∧ (summarizeBatchRun items primary globalReg remote).btnDisabled = false
    ∧ (summarizeBatchRun items primary globalReg remote).loadingHidden = true :=
  ⟨rfl, rfl, rfl⟩
